import Mathlib

/-!
Verification development for the LFPS (Low-Frequency Periodic Signaling) layer
of the usb3_pipe reference design (file usb3_pipe/lfps.py).

The Python source is a migen hardware description.  It is embedded here as a
synchronous transition system evaluated once per clock tick:

* Signals reset to 0; NextValue assignments take effect on the next tick; a
  later NextValue to the same signal inside one FSM action overrides an
  earlier one; combinational outputs are functions of the current state.
* migen WaitTimer(t) holds an internal down counter with reset value t; its
  combinational output done is (count = 0); on each tick, when wait is
  asserted the counter decrements unless it is already 0, and when wait is
  deasserted the counter reloads to t.
* migen MultiReg(i, o) with the default depth 2 is a two stage shift register
  with both stages reset to 0.
* Python floats are modelled by exact rationals; real numbers appearing in
  the source are written as exact rational literals.  The one place where
  binary64 rounding makes the Python program deviate from the exact value is
  documented at float64_ten_us below and settled in the C5 theorem.

All machine counters are modelled as Nat.  Truncated subtraction only occurs
where the hardware counter cannot underflow (the C9 invariant), so Nat
subtraction is faithful to the register file for every reachable state.
-/

/-- Constant lfps_clk_freq_min = 1/100e-9 from the source.  The binary64
value of this expression is exactly 10000000, so the rational is exact. -/
def lfps_clk_freq_min : ℚ := 10000000

/-- Constant lfps_clk_freq_max = 1/20e-9 from the source (exactly 50000000
in binary64 as well). -/
def lfps_clk_freq_max : ℚ := 50000000

/-- Record for LFPSTiming: a typical duration (optional) and a min/max
window, all in seconds.  The source asserts that t_min and t_max are always
given, hence they are plain fields here. -/
structure LFPSTiming where
  t_typ : Option ℚ
  t_min : ℚ
  t_max : ℚ
deriving DecidableEq

/-- Record for an LFPS signal definition: burst timing, optional repeat
timing, optional cycle count. -/
structure LFPS where
  burst : LFPSTiming
  repeat' : Option LFPSTiming
  cycles : Option ℕ
deriving DecidableEq

/-- Constructor of LFPS as written in the source: it stores burst and repeat
but assigns None to self.cycles, discarding the cycles argument. -/
def LFPS.make (burst : LFPSTiming) (repeat' : Option LFPSTiming)
    (cycles : Option ℕ) : LFPS :=
  { burst := burst, repeat' := repeat', cycles := none }

/-- Function ns_to_cycles(clk_freq, t) = ceil(t*clk_freq), over exact
rationals. -/
def ns_to_cycles (clk_freq t : ℚ) : ℤ := Int.ceil (t * clk_freq)

/-- PollingLFPSBurst: t_typ 1.0e-6, t_min 0.6e-6, t_max 1.4e-6. -/
def PollingLFPSBurst : LFPSTiming :=
  ⟨some (1 / 1000000), 3 / 5000000, 7 / 5000000⟩

/-- PollingLFPSRepeat: t_typ 10.0e-6, t_min 6.0e-6, t_max 14.0e-6. -/
def PollingLFPSRepeat : LFPSTiming :=
  ⟨some (1 / 100000), 3 / 500000, 7 / 500000⟩

/-- PollingLFPS definition. -/
def PollingLFPS : LFPS := LFPS.make PollingLFPSBurst (some PollingLFPSRepeat) none

/-- PingLFPSBurst: t_typ None, t_min 40.0e-9, t_max 200.0e-9. -/
def PingLFPSBurst : LFPSTiming := ⟨none, 1 / 25000000, 1 / 5000000⟩

/-- PingLFPSRepeat: t_typ 200.0e-3, t_min 160.0e-3, t_max 240.0e-3. -/
def PingLFPSRepeat : LFPSTiming := ⟨some (1 / 5), 4 / 25, 6 / 25⟩

/-- PingLFPS definition; note the cycles=2 argument, discarded by the
constructor. -/
def PingLFPS : LFPS := LFPS.make PingLFPSBurst (some PingLFPSRepeat) (some 2)

/-- ResetLFPSBurst: t_typ 100.0e-3, t_min 80.0e-3, t_max 120.0e-3. -/
def ResetLFPSBurst : LFPSTiming := ⟨some (1 / 10), 2 / 25, 3 / 25⟩

/-- ResetLFPS definition (no repeat timing). -/
def ResetLFPS : LFPS := LFPS.make ResetLFPSBurst none none

/-- U1ExitLFPSBurst: t_typ None, t_min 300.0e-9, t_max 900.0e-9. -/
def U1ExitLFPSBurst : LFPSTiming := ⟨none, 3 / 10000000, 9 / 10000000⟩

/-- U1ExitLFPS definition. -/
def U1ExitLFPS : LFPS := LFPS.make U1ExitLFPSBurst none none

/-- U2LFPSBurst: t_typ None, t_min 80.0e-3, t_max 2.0e-3 (as in the
source). -/
def U2LFPSBurst : LFPSTiming := ⟨none, 2 / 25, 1 / 500⟩

/-- U2LFPS definition. -/
def U2LFPS : LFPS := LFPS.make U2LFPSBurst none none

/-- LoopbackExitLFPS is an alias of U2LFPS. -/
def LoopbackExitLFPS : LFPS := U2LFPS

/-- U3WakeupLFPSBurst: t_typ None, t_min 80.0e-3, t_max 10.0e-3 (as in the
source). -/
def U3WakeupLFPSBurst : LFPSTiming := ⟨none, 2 / 25, 1 / 100⟩

/-- U3WakeupLFPS definition. -/
def U3WakeupLFPS : LFPS := LFPS.make U3WakeupLFPSBurst none none

/-- Helper reading an optional duration; the source dereferences t_typ
unconditionally and for Polling the field is always present, so the default
branch is never taken for the values actually used. -/
def typOrZero (o : Option ℚ) : ℚ := o.getD 0

/-- Value burst_cycles = ns_to_cycles(sys_clk_freq, PollingLFPS.burst.t_typ)
computed identically in the receiver and the transmitter. -/
def burst_cycles (sys_clk_freq : ℚ) : ℤ :=
  ns_to_cycles sys_clk_freq (typOrZero PollingLFPS.burst.t_typ)

/-- Value repeat_cycles = ns_to_cycles(sys_clk_freq, PollingLFPS.repeat.t_typ)
computed identically in the receiver and the transmitter. -/
def repeat_cycles (sys_clk_freq : ℚ) : ℤ :=
  ns_to_cycles sys_clk_freq
    (typOrZero (PollingLFPS.repeat'.elim none (fun tm => tm.t_typ)))

/-- Exact value of the IEEE-754 binary64 floating point number nearest to
1.0e-5 (the Python literal 10.0e-6), namely 5902958103587057 * 2 ^ (-69).
It is strictly above 1.0e-5 and within half an ulp (2 ^ (-70)) of it, which
the C5 theorem certifies, so it is the value the Python program actually
multiplies by the clock frequency. -/
def float64_ten_us : ℚ := 5902958103587057 / 590295810358705651712

/-- Construction-time failures.  The source expresses them as assert
statements on the requested LFPS clock frequency. -/
inductive ConfigError
  | freqTooLow
  | freqTooHigh
deriving DecidableEq

/-- Configuration data computed by LFPSTransmitter.__init__: the WaitTimer
load ceil(sys_clk_freq/(2*lfps_clk_freq)) - 1 of the burst clock generator,
and the Polling burst/repeat tick counts. -/
structure TransmitterConfig where
  clk_timer_load : ℤ
  tx_burst_cycles : ℤ
  tx_repeat_cycles : ℤ
deriving DecidableEq

/-- Constructor model for LFPSTransmitter.__init__: the only checks in the
source are the two asserts bounding lfps_clk_freq; sys_clk_freq is never
validated. -/
def transmitterNew (sys_clk_freq lfps_clk_freq : ℚ) :
    Except ConfigError TransmitterConfig :=
  if lfps_clk_freq < lfps_clk_freq_min then Except.error ConfigError.freqTooLow
  else if lfps_clk_freq_max < lfps_clk_freq then Except.error ConfigError.freqTooHigh
  else Except.ok ⟨Int.ceil (sys_clk_freq / (2 * lfps_clk_freq)) - 1,
                  burst_cycles sys_clk_freq, repeat_cycles sys_clk_freq⟩

/-- Configuration data computed by LFPSReceiver.__init__. -/
structure ReceiverConfig where
  rx_burst_cycles : ℤ
  rx_repeat_cycles : ℤ
deriving DecidableEq

/-- Constructor model for LFPSReceiver.__init__: the source contains no
validation at all, so construction always succeeds at this level.  (With a
non-positive tick rate the migen library itself may reject the computed
Signal width downstream, but that is not a check present in this source.) -/
def receiverNew (sys_clk_freq : ℚ) : Except ConfigError ReceiverConfig :=
  Except.ok ⟨burst_cycles sys_clk_freq, repeat_cycles sys_clk_freq⟩

/-- States of the receiver FSM (reset state TBURST). -/
inductive DetPhase
  | TBURST
  | TREPEAT
deriving DecidableEq

/-- Registers of the LFPSReceiver: FSM state, down counter count, latch
found.  All reset to 0 / TBURST. -/
structure DetState where
  phase : DetPhase
  count : ℕ
  found : Bool
deriving DecidableEq

/-- Reset state of the receiver registers. -/
def detInit : DetState := ⟨.TBURST, 0, false⟩

/-- One clock tick of the LFPSReceiver FSM with parameters B = burst_cycles
and R = repeat_cycles; i is the synchronized idle input of the current tick.
In state TBURST the count update and the found update are two parallel If
blocks of the same action, so the found conditional is replicated in each
count branch.  In state TREPEAT the unconditional decrement of count is
overridden by the reload when the exit condition holds. -/
def detStep (B R : ℕ) (i : Bool) (s : DetState) : DetState :=
  match s.phase with
  | .TBURST =>
    if s.count = 0 then
      if i = false then
        ⟨.TBURST, B - 1, if s.found && !i then false else s.found⟩
      else
        ⟨.TREPEAT, R - B - 1, if s.found && !i then false else s.found⟩
    else
      ⟨.TBURST, s.count - 1, if s.found && !i then false else s.found⟩
  | .TREPEAT =>
    if s.count = 0 ∨ i = false then ⟨.TBURST, B - 1, decide (s.count = 0)⟩
    else ⟨.TREPEAT, s.count - 1, s.found⟩

/-- Combinational polling output of the receiver: driven to 1 only inside
the TBURST action, when found is latched and the input is low. -/
def detOut (i : Bool) (s : DetState) : Bool :=
  decide (s.phase = .TBURST) && s.found && !i

/-- Generic synchronous run of a machine: state after n ticks together with
the number of ticks among 0..n-1 whose combinational pulse output was
asserted.  The input stream is u; the step and output functions receive the
input of the current tick.  Written with a bare Nat.rec so that each
unfolding step is a definitional reduction. -/
def mrun {S : Type} (step : Bool → S → S) (out : Bool → S → Bool)
    (u : ℕ → Bool) (s0 : S) (n : ℕ) : S × ℕ :=
  Nat.rec (motive := fun _ => S × ℕ) (s0, 0)
    (fun k ih => (step (u k) ih.1, ih.2 + (if out (u k) ih.1 then 1 else 0))) n

/-- State after n ticks. -/
def mst {S : Type} (step : Bool → S → S) (out : Bool → S → Bool)
    (u : ℕ → Bool) (s0 : S) (n : ℕ) : S :=
  (mrun step out u s0 n).1

/-- Number of output pulses strictly before tick n. -/
def mcnt {S : Type} (step : Bool → S → S) (out : Bool → S → Bool)
    (u : ℕ → Bool) (s0 : S) (n : ℕ) : ℕ :=
  (mrun step out u s0 n).2

/-- Pulse output at tick n. -/
def mpulse {S : Type} (step : Bool → S → S) (out : Bool → S → Bool)
    (u : ℕ → Bool) (s0 : S) (n : ℕ) : Bool :=
  out (u n) (mst step out u s0 n)

/-- Ideal periodic Polling cadence at burst_cycles = 100 and
repeat_cycles = 1000 (the exact Polling tick counts at a 100 MHz tick rate):
low (bursting) on ticks t with t mod 1000 < 100, high (idle) otherwise. -/
def upPolling : ℕ → Bool := fun t => decide (100 ≤ t % 1000)

/-- The same cadence repeated exactly k times and followed by permanent
idle: the input of the C1 experiment. -/
def ukPolling (k : ℕ) : ℕ → Bool :=
  fun t => if t < 1000 * k then upPolling t else true

/-- Registers of the two WaitTimers of the LFPSTransmitter burst gate:
cb is the burst_timer counter (reset burst_cycles) and cr is the
repeat_timer counter (reset repeat_cycles). -/
structure GenState where
  cb : ℕ
  cr : ℕ
deriving DecidableEq

/-- One clock tick of the transmitter gating timers.  Both wait inputs are
driven by the negation of repeat_timer.done = (cr = 0): while cr is nonzero
both counters count down (the burst counter saturating at 0), and when cr
reaches 0 both reload to their reset values on the next tick. -/
def genStep (B R : ℕ) (g : GenState) : GenState :=
  if g.cr = 0 then ⟨B, R⟩
  else ⟨if g.cb = 0 then g.cb else g.cb - 1, g.cr - 1⟩

/-- Combinational idle output of the transmitter: burst_timer.done. -/
def genIdle (g : GenState) : Bool := decide (g.cb = 0)

/-- Transmitter gate state after n ticks from reset. -/
def genTraceAt (B R n : ℕ) : GenState :=
  Nat.rec (motive := fun _ => GenState) ⟨B, R⟩ (fun _ ih => genStep B R ih) n

/-- Transmitter idle output at tick n. -/
def genIdleAt (B R n : ℕ) : Bool := genIdle (genTraceAt B R n)

/-- Registers of the transmitter burst clock generator: WaitTimer counter
cnt (reset value T, the timer parameter ceil(sys/(2*lfps)) - 1) and the
toggling bit clk (reset 0).  The timer wait input is the negation of its own
done output, and clk toggles on every tick where done is asserted. -/
structure OscState where
  cnt : ℕ
  clk : Bool
deriving DecidableEq

/-- One clock tick of the burst clock generator. -/
def oscStep (T : ℕ) (s : OscState) : OscState :=
  ⟨if s.cnt = 0 then T else s.cnt - 1, if s.cnt = 0 then !s.clk else s.clk⟩

/-- Burst clock generator state after n ticks from reset. -/
def oscTraceAt (T n : ℕ) : OscState :=
  Nat.rec (motive := fun _ => OscState) ⟨T, false⟩ (fun _ ih => oscStep T ih) n

/-- Oscillator bit at tick n. -/
def oscClkAt (T n : ℕ) : Bool := (oscTraceAt T n).clk

/-- Composed state of the C3 closed loop experiment at the Polling tick
counts (100, 1000): transmitter gate timers, the two MultiReg stages of the
receiver input synchronizer (m2 is the synchronized value seen by the FSM),
and the receiver FSM registers. -/
structure LoopState where
  gen : GenState
  m1 : Bool
  m2 : Bool
  det : DetState
deriving DecidableEq

/-- Reset state of the closed loop. -/
def loopInit : LoopState := ⟨⟨100, 1000⟩, false, false, detInit⟩

/-- One clock tick of the closed loop: the transmitter idle output of the
current tick enters the first synchronizer stage, the second stage feeds the
receiver FSM.  The Bool argument is ignored (the loop has no free input);
it exists so that the generic machine framework applies. -/
def loopStep (_x : Bool) (s : LoopState) : LoopState :=
  { gen := genStep 100 1000 s.gen
    m1 := genIdle s.gen
    m2 := s.m1
    det := detStep 100 1000 s.m2 s.det }

/-- Pulse output of the closed loop: the receiver polling output, computed
from the synchronized input m2 and the FSM registers. -/
def loopOut (_x : Bool) (s : LoopState) : Bool := detOut s.m2 s.det

/-- Constant input stream for machines that take no input. -/
def uTrue : ℕ → Bool := fun _ => true

section Machine

variable {S : Type} (step : Bool → S → S) (out : Bool → S → Bool)
variable (u v : ℕ → Bool) (s0 : S)

theorem mrun_succ (n : ℕ) :
    mrun step out u s0 (n + 1) =
      (step (u n) (mrun step out u s0 n).1,
       (mrun step out u s0 n).2 +
         (if out (u n) (mrun step out u s0 n).1 then 1 else 0)) := rfl

theorem mst_succ (n : ℕ) :
    mst step out u s0 (n + 1) = step (u n) (mst step out u s0 n) := rfl

theorem mcnt_succ (n : ℕ) :
    mcnt step out u s0 (n + 1) =
      mcnt step out u s0 n + (if mpulse step out u s0 n then 1 else 0) := rfl

theorem mcnt_mono {a b : ℕ} (h : a ≤ b) :
    mcnt step out u s0 a ≤ mcnt step out u s0 b := by
  induction b with
  | zero =>
    have ha : a = 0 := Nat.le_zero.mp h
    rw [ha]
  | succ b ih =>
    rcases Nat.eq_or_lt_of_le h with he | hlt
    · rw [he]
    · have h2 : a ≤ b := by omega
      calc mcnt step out u s0 a ≤ mcnt step out u s0 b := ih h2
        _ ≤ mcnt step out u s0 (b + 1) := by
              rw [mcnt_succ step out u s0 b]; exact Nat.le_add_right _ _

theorem mpulse_count_leap {t : ℕ} (h : mpulse step out u s0 t = true) :
    mcnt step out u s0 (t + 1) = mcnt step out u s0 t + 1 := by
  rw [mcnt_succ step out u s0 t, h]
  simp

theorem mpulse_false_between {a b t : ℕ}
    (h : mcnt step out u s0 a = mcnt step out u s0 b)
    (h1 : a ≤ t) (h2 : t < b) : mpulse step out u s0 t = false := by
  by_contra hp
  rw [Bool.not_eq_false] at hp
  have e1 := mpulse_count_leap step out u s0 hp
  have l1 := mcnt_mono step out u s0 h1
  have l2 := mcnt_mono step out u s0 (show t + 1 ≤ b by omega)
  omega

theorem mcnt_eq_zero (n : ℕ)
    (h : ∀ t, t < n → mpulse step out u s0 t = false) :
    mcnt step out u s0 n = 0 := by
  induction n with
  | zero => rfl
  | succ n ih =>
    rw [mcnt_succ step out u s0 n, h n (by omega)]
    simp [ih (fun t ht => h t (by omega))]

theorem mst_congr (n : ℕ) (h : ∀ t, t < n → u t = v t) :
    mst step out u s0 n = mst step out v s0 n := by
  induction n with
  | zero => rfl
  | succ n ih =>
    rw [mst_succ step out u s0 n, mst_succ step out v s0 n,
      h n (by omega), ih (fun t ht => h t (by omega))]

theorem mpulse_congr (n : ℕ) (h : ∀ t, t ≤ n → u t = v t) :
    mpulse step out u s0 n = mpulse step out v s0 n := by
  unfold mpulse
  rw [h n le_rfl, mst_congr step out u v s0 n (fun t ht => h t (by omega))]

theorem mst_periodic {a p : ℕ} (hu : ∀ t, u (t + p) = u t)
    (hbase : mst step out u s0 (a + p) = mst step out u s0 a) (d : ℕ) :
    mst step out u s0 (a + d + p) = mst step out u s0 (a + d) := by
  induction d with
  | zero => simpa using hbase
  | succ d ih =>
    have h1 : a + (d + 1) + p = (a + d + p) + 1 := by omega
    have h2 : a + (d + 1) = (a + d) + 1 := by omega
    rw [h1, h2, mst_succ step out u s0 (a + d + p),
      mst_succ step out u s0 (a + d), ih, hu (a + d)]

theorem mpulse_periodic {a p : ℕ} (hu : ∀ t, u (t + p) = u t)
    (hbase : mst step out u s0 (a + p) = mst step out u s0 a) (d : ℕ) :
    mpulse step out u s0 (a + d + p) = mpulse step out u s0 (a + d) := by
  unfold mpulse
  rw [mst_periodic step out u s0 hu hbase d, hu (a + d)]

theorem mpulse_rep {a p : ℕ} (hu : ∀ t, u (t + p) = u t)
    (hbase : mst step out u s0 (a + p) = mst step out u s0 a) (q d : ℕ) :
    mpulse step out u s0 (a + d + p * q) = mpulse step out u s0 (a + d) := by
  induction q with
  | zero => simp
  | succ q ih =>
    have h1 : a + d + p * (q + 1) = a + (d + p * q) + p := by ring
    rw [h1, mpulse_periodic step out u s0 hu hbase (d + p * q)]
    have h2 : a + (d + p * q) = a + d + p * q := by ring
    rw [h2]
    exact ih

theorem mpulse_reduce {a p : ℕ} (hu : ∀ t, u (t + p) = u t)
    (hbase : mst step out u s0 (a + p) = mst step out u s0 a)
    (t : ℕ) (ht : a ≤ t) :
    mpulse step out u s0 t = mpulse step out u s0 (a + (t - a) % p) := by
  have hd := Nat.div_add_mod (t - a) p
  have h1 : t = a + (t - a) % p + p * ((t - a) / p) := by omega
  conv_lhs => rw [h1]
  exact mpulse_rep step out u s0 hu hbase ((t - a) / p) ((t - a) % p)

theorem mrun_add (a b : ℕ) :
    mrun step out u s0 (a + b) =
      ((mrun step out (fun t => u (a + t)) (mrun step out u s0 a).1 b).1,
       (mrun step out u s0 a).2 +
         (mrun step out (fun t => u (a + t)) (mrun step out u s0 a).1 b).2) := by
  induction b with
  | zero =>
    show mrun step out u s0 (a + 0) =
      ((mrun step out u s0 a).1, (mrun step out u s0 a).2 + 0)
    rw [Nat.add_zero, Nat.add_zero]
  | succ b ih =>
    have h : a + (b + 1) = (a + b) + 1 := by omega
    rw [h, mrun_succ step out u s0 (a + b), ih,
      mrun_succ step out (fun t => u (a + t)) (mrun step out u s0 a).1 b]
    dsimp only
    rw [Nat.add_assoc]

end Machine

theorem mod_succ_lt {t m r : ℕ} (hr : t % m = r) (hlt : r + 1 < m) :
    (t + 1) % m = r + 1 := by
  have hd := Nat.div_add_mod t m
  have h2 : t + 1 = m * (t / m) + (r + 1) := by omega
  rw [h2, Nat.mul_add_mod]
  exact Nat.mod_eq_of_lt hlt

theorem mod_succ_eq_zero {t m : ℕ} (hm : 0 < m) (hr : t % m = m - 1) :
    (t + 1) % m = 0 := by
  have hd := Nat.div_add_mod t m
  have h2 : t + 1 = m * (t / m) + m := by omega
  have h3 : m * (t / m) + m = m * (t / m + 1) := by ring
  rw [h2, h3, Nat.mul_mod_right]

theorem div_succ_same {t m r : ℕ} (hr : t % m = r) (hlt : r + 1 < m) :
    (t + 1) / m = t / m := by
  have hd := Nat.div_add_mod t m
  have hm : 0 < m := by omega
  have h2 : t + 1 = m * (t / m) + (r + 1) := by omega
  rw [h2, Nat.mul_add_div hm, Nat.div_eq_of_lt hlt, Nat.add_zero]

theorem div_succ_bump {t m : ℕ} (hm : 0 < m) (hr : t % m = m - 1) :
    (t + 1) / m = t / m + 1 := by
  have hd := Nat.div_add_mod t m
  have h2 : t + 1 = m * (t / m) + m := by omega
  have h3 : m * (t / m) + m = m * (t / m + 1) := by ring
  rw [h2, h3, Nat.mul_div_cancel_left _ hm]

theorem genTraceAt_succ (B R n : ℕ) :
    genTraceAt B R (n + 1) = genStep B R (genTraceAt B R n) := rfl

/-- Closed form of the transmitter gate registers: both counters follow the
tick index modulo repeat_cycles + 1 (a WaitTimer spends repeat_cycles + 1
ticks per lap: counting repeat_cycles down to 0 and one reload tick). -/
theorem genTrace_closed (B R t : ℕ) :
    genTraceAt B R t = ⟨B - t % (R + 1), R - t % (R + 1)⟩ := by
  induction t with
  | zero =>
    show (⟨B, R⟩ : GenState) = _
    simp
  | succ t ih =>
    rw [genTraceAt_succ, ih]
    rcases Nat.lt_or_ge (t % (R + 1) + 1) (R + 1) with hlt | hge
    · have hmod := mod_succ_lt rfl hlt
      have hcr : R - t % (R + 1) ≠ 0 := by omega
      rw [hmod]
      simp only [genStep]
      rw [if_neg hcr]
      have e1 : (if B - t % (R + 1) = 0 then B - t % (R + 1)
          else B - t % (R + 1) - 1) = B - (t % (R + 1) + 1) := by
        split_ifs <;> omega
      have e2 : R - t % (R + 1) - 1 = R - (t % (R + 1) + 1) := by omega
      rw [e1, e2]
    · have hbound := Nat.mod_lt t (show 0 < R + 1 by omega)
      have hreq : t % (R + 1) = R := by omega
      have hmod := mod_succ_eq_zero (show 0 < (R:ℕ) + 1 by omega)
        (show t % (R + 1) = (R + 1) - 1 by omega)
      rw [hmod]
      simp [genStep, hreq, Nat.sub_self]

theorem oscTraceAt_succ (T n : ℕ) :
    oscTraceAt T (n + 1) = oscStep T (oscTraceAt T n) := rfl

/-- Closed form of the burst clock generator: with timer parameter T the
counter follows the tick index modulo T + 1 and the clock bit equals the
parity of the number of completed laps, so the bit flips exactly every
T + 1 ticks. -/
theorem oscTrace_closed (T t : ℕ) :
    oscTraceAt T t = ⟨T - t % (T + 1), decide ((t / (T + 1)) % 2 = 1)⟩ := by
  induction t with
  | zero =>
    show (⟨T, false⟩ : OscState) = _
    simp
  | succ t ih =>
    rw [oscTraceAt_succ, ih]
    rcases Nat.lt_or_ge (t % (T + 1) + 1) (T + 1) with hlt | hge
    · have hmod := mod_succ_lt rfl hlt
      have hdiv := div_succ_same rfl hlt
      have hcnt : T - t % (T + 1) ≠ 0 := by omega
      rw [hmod, hdiv]
      simp only [oscStep]
      rw [if_neg hcnt, if_neg hcnt]
      have e1 : T - t % (T + 1) - 1 = T - (t % (T + 1) + 1) := by omega
      rw [e1]
    · have hbound := Nat.mod_lt t (show 0 < T + 1 by omega)
      have hreq : t % (T + 1) = T := by omega
      have hmod := mod_succ_eq_zero (show 0 < (T:ℕ) + 1 by omega)
        (show t % (T + 1) = (T + 1) - 1 by omega)
      have hdiv := div_succ_bump (show 0 < (T:ℕ) + 1 by omega)
        (show t % (T + 1) = (T + 1) - 1 by omega)
      rw [hmod, hdiv]
      have hpar : ((t / (T + 1) + 1) % 2 = 1) ↔ ¬(t / (T + 1) % 2 = 1) := by
        omega
      simp only [oscStep, hreq, Nat.sub_self, eq_self_iff_true, if_true,
        Nat.sub_zero]
      rw [decide_eq_decide.mpr hpar, decide_not]

/-- Claim C2 (corrected).  The transmitter idle output is deasserted during
ticks [0, burst_ticks) of each period and asserted during
[burst_ticks, repeat_ticks], and the pattern repeats cyclically forever;
however the period is repeat_ticks + 1 ticks, not repeat_ticks: a WaitTimer
with parameter repeat_ticks spends repeat_ticks + 1 ticks per lap (counting
down to 0 and then one reload tick).  Stated as a closed form for every
tick: idle at tick t equals (burst_ticks <= t mod (repeat_ticks + 1)). -/
theorem C2_amended_idle_pattern (B R t : ℕ) :
    genIdleAt B R t = decide (B ≤ t % (R + 1)) := by
  unfold genIdleAt genIdle
  rw [genTrace_closed]
  show decide (B - t % (R + 1) = 0) = decide (B ≤ t % (R + 1))
  exact decide_eq_decide.mpr (by omega)

/-- Counterexample to claim C2 as stated: with burst_ticks = 100 and
repeat_ticks = 1000, cyclic repetition with period repeat_ticks would force
the idle output at tick 1000 (which is tick 0 of the second claimed period,
inside [0, burst_ticks)) to be deasserted like at tick 0; the code asserts
it. -/
theorem C2_counterexample :
    genIdleAt 100 1000 1000 = true ∧ 1000 % 1000 = 0 ∧
    genIdleAt 100 1000 0 = false := by
  refine ⟨?_, by norm_num, ?_⟩
  · unfold genIdleAt genIdle
    rw [genTrace_closed]
    decide
  · unfold genIdleAt genIdle
    rw [genTrace_closed]
    decide

/-- Claim C6 (amended).  The oscillator bit advances every N ticks where
N = ceil(tick_rate / (2 * target_frequency)) — the code loads the WaitTimer
with ceil(ratio) - 1, giving a lap of ceil(ratio) ticks — not
floor(tick_rate / (2 * target_frequency)) as claimed.  The two agree at the
claimed instance 500 MHz / 25 MHz, where the ratio is the integer 10.  The
bit at tick n equals the parity of n / N, i.e. it flips exactly at the
multiples of N. -/
theorem C6_amended_osc_period (sys lfps : ℚ) (N : ℕ)
    (hcode : (N : ℤ) = Int.ceil (sys / (2 * lfps))) (hN : 1 ≤ N) (n : ℕ) :
    oscClkAt (N - 1) n = decide ((n / N) % 2 = 1) := by
  unfold oscClkAt
  rw [oscTrace_closed]
  have h : N - 1 + 1 = N := by omega
  rw [h]

/-- Witness for C6: at sys_clk_freq 500 MHz and lfps_clk_freq 25 MHz the
code timer parameter is ceil(10) - 1 = 9 and the bit at tick 10 is given by
the parity formula with N = 10 (first flip at tick 10). -/
theorem C6_amended_osc_period_witness :
    ((10 : ℕ) : ℤ) = Int.ceil ((500000000 : ℚ) / (2 * 25000000)) ∧
    (1 : ℕ) ≤ 10 ∧
    oscClkAt (10 - 1) 10 = decide ((10 / 10) % 2 = 1) :=
  ⟨by rw [show ((500000000 : ℚ) / (2 * 25000000)) = ((10 : ℤ) : ℚ) by norm_num,
        Int.ceil_intCast]; norm_num,
   by norm_num,
   C6_amended_osc_period 500000000 25000000 10
     (by rw [show ((500000000 : ℚ) / (2 * 25000000)) = ((10 : ℤ) : ℚ) by norm_num,
           Int.ceil_intCast]; norm_num)
     (by norm_num) 10⟩

/-- Counterexample to claim C6 as stated: with tick_rate 100 MHz and target
frequency 30 MHz (inside the legal range) the ratio is 5/3, the claimed
period floor(5/3) = 1 would make the bit flip at tick 1, but the code timer
parameter is ceil(5/3) - 1 = 1 and the bit is unchanged at tick 1; it first
flips at tick 2 = ceil(5/3). -/
theorem C6_counterexample :
    Int.floor ((100000000 : ℚ) / (2 * 30000000)) = 1 ∧
    Int.ceil ((100000000 : ℚ) / (2 * 30000000)) = 2 ∧
    oscClkAt (2 - 1) 1 = oscClkAt (2 - 1) 0 ∧
    oscClkAt (2 - 1) 2 = true ∧ oscClkAt (2 - 1) 0 = false := by
  refine ⟨?_, ?_, by decide, by decide, by decide⟩
  · rw [show (100000000 : ℚ) / (2 * 30000000) = 5 / 3 by norm_num,
      Int.floor_eq_iff]
    norm_num
  · rw [show (100000000 : ℚ) / (2 * 30000000) = 5 / 3 by norm_num,
      Int.ceil_eq_iff]
    norm_num

/-- Claim C4 (confirmed).  If the receiver FSM sits in the TREPEAT phase
with a nonzero counter (the repeat window has not yet elapsed) and the input
goes low again (early re-burst), then the machine returns to TBURST with the
found latch cleared, no pulse is emitted on the transition tick (the polling
output is only driven in TBURST), and no pulse is emitted from the successor
state either, whatever the next input is, because found is false there. -/
theorem C4_early_reburst (B R : ℕ) (i2 : Bool) (s : DetState)
    (hph : s.phase = DetPhase.TREPEAT) (hc : s.count ≠ 0) :
    detStep B R false s = ⟨DetPhase.TBURST, B - 1, false⟩ ∧
    detOut false s = false ∧
    detOut i2 (detStep B R false s) = false := by
  obtain ⟨ph, c, f⟩ := s
  cases ph with
  | TBURST => simp at hph
  | TREPEAT =>
    simp only at hc
    refine ⟨?_, ?_, ?_⟩ <;> simp [detStep, detOut, hc]

/-- Witness for C4 at a concrete early re-burst state. -/
theorem C4_early_reburst_witness :
    ((⟨DetPhase.TREPEAT, 5, true⟩ : DetState).phase = DetPhase.TREPEAT ∧
      (⟨DetPhase.TREPEAT, 5, true⟩ : DetState).count ≠ 0) ∧
    (detStep 100 1000 false ⟨DetPhase.TREPEAT, 5, true⟩ =
        ⟨DetPhase.TBURST, 100 - 1, false⟩ ∧
      detOut false ⟨DetPhase.TREPEAT, 5, true⟩ = false ∧
      detOut false (detStep 100 1000 false ⟨DetPhase.TREPEAT, 5, true⟩) = false) :=
  ⟨⟨rfl, by decide⟩,
   C4_early_reburst 100 1000 false ⟨DetPhase.TREPEAT, 5, true⟩ rfl (by decide)⟩

theorem det_count_le (B R : ℕ) (u : ℕ → Bool) (hB : 1 ≤ B) (hBR : B < R)
    (n : ℕ) :
    (mst (detStep B R) detOut u detInit n).count ≤ max B R - 1 := by
  induction n with
  | zero => exact Nat.zero_le _
  | succ n ih =>
    rw [mst_succ (detStep B R) detOut u detInit n]
    generalize hs : mst (detStep B R) detOut u detInit n = s at ih ⊢
    obtain ⟨ph, c, f⟩ := s
    simp only at ih
    cases ph with
    | TBURST =>
      simp only [detStep]
      split_ifs <;> simp <;> omega
    | TREPEAT =>
      simp only [detStep]
      split_ifs <;> simp <;> omega

/-- Claim C9 (confirmed).  For the receiver FSM with parameters
B = burst_cycles >= 1 and R = repeat_cycles > B (the Polling configuration
shape), the counter stays in [0, max(B, R) - 1] along every input trace, and
both reload values B - 1 and R - B - 1 lie in that range; decrements only
happen from a nonzero counter (in TREPEAT the decrement at zero is overridden
by the reload), so the Nat model never truncates and the hardware counter,
sized for max(B, R) values, never underflows or wraps. -/
theorem C9_count_invariant (B R : ℕ) (u : ℕ → Bool) (n : ℕ)
    (hB : 1 ≤ B) (hBR : B < R) :
    (mst (detStep B R) detOut u detInit n).count ≤ max B R - 1 ∧
    B - 1 ≤ max B R - 1 ∧ R - B - 1 ≤ max B R - 1 :=
  ⟨det_count_le B R u hB hBR n, by omega, by omega⟩

/-- Witness for C9 at the Polling tick counts and a concrete trace point. -/
theorem C9_count_invariant_witness :
    ((1 : ℕ) ≤ 100 ∧ (100 : ℕ) < 1000) ∧
    ((mst (detStep 100 1000) detOut upPolling detInit 321).count ≤
        max 100 1000 - 1 ∧
      100 - 1 ≤ max 100 1000 - 1 ∧ 1000 - 100 - 1 ≤ max 100 1000 - 1) :=
  ⟨⟨by norm_num, by norm_num⟩,
   C9_count_invariant 100 1000 upPolling 321 (by norm_num) (by norm_num)⟩

theorem ceil_rat_eq {q : ℚ} {z : ℤ} (h1 : (z : ℚ) - 1 < q) (h2 : q ≤ (z : ℚ)) :
    Int.ceil q = z :=
  Int.ceil_eq_iff.mpr ⟨h1, h2⟩

/-- Claim C5 (code bug).  Over exact arithmetic the conversion contract of
the claim holds: ns_to_cycles R d = ceil(d * R), it is at least 1 for
positive rate and duration, and at a 100 MHz tick rate the Polling typical
durations give burst_cycles = 100 and repeat_cycles = 1000.  The running
Python program, however, evaluates the repeat duration as the binary64
number float64_ten_us, which is strictly greater than 1.0e-5 (the last two
conjuncts certify that it is the binary64 neighbour of 1.0e-5: above it and
within half an ulp, 2 ^ (-70)), so the product with 1.0e8 is slightly above
1000 and the Python ceil returns 1001, not the 1000 the claim states: the
code deviates from its own defining formula on this input. -/
theorem C5_duration_conversion (R d : ℚ) (hR : 0 < R) (hd : 0 < d) :
    ns_to_cycles R d = Int.ceil (d * R) ∧
    1 ≤ ns_to_cycles R d ∧
    burst_cycles 100000000 = 100 ∧
    repeat_cycles 100000000 = 1000 ∧
    ns_to_cycles 100000000 float64_ten_us = 1001 ∧
    1 / 100000 < float64_ten_us ∧
    float64_ten_us < 1 / 100000 + 1 / 1180591620717411303424 := by
  refine ⟨rfl, ?_, ?_, ?_, ?_, ?_, ?_⟩
  · have h : 0 < Int.ceil (d * R) := Int.ceil_pos.mpr (mul_pos hd hR)
    unfold ns_to_cycles
    omega
  · show Int.ceil (typOrZero PollingLFPS.burst.t_typ * 100000000) = 100
    rw [show typOrZero PollingLFPS.burst.t_typ = 1 / 1000000 from rfl]
    exact ceil_rat_eq (by norm_num) (by norm_num)
  · show Int.ceil
      (typOrZero (PollingLFPS.repeat'.elim none (fun tm => tm.t_typ)) *
        100000000) = 1000
    rw [show typOrZero (PollingLFPS.repeat'.elim none (fun tm => tm.t_typ)) =
      1 / 100000 from rfl]
    exact ceil_rat_eq (by norm_num) (by norm_num)
  · show Int.ceil (float64_ten_us * 100000000) = 1001
    exact ceil_rat_eq (by norm_num [float64_ten_us]) (by norm_num [float64_ten_us])
  · norm_num [float64_ten_us]
  · norm_num [float64_ten_us]

/-- Witness for C5 at the canonical instance (rate 100 MHz, duration one
microsecond). -/
theorem C5_duration_conversion_witness :
    ((0 : ℚ) < 100000000 ∧ (0 : ℚ) < 1 / 1000000) ∧
    (ns_to_cycles 100000000 (1 / 1000000) =
        Int.ceil ((1 / 1000000 : ℚ) * 100000000) ∧
      1 ≤ ns_to_cycles 100000000 (1 / 1000000) ∧
      burst_cycles 100000000 = 100 ∧
      repeat_cycles 100000000 = 1000 ∧
      ns_to_cycles 100000000 float64_ten_us = 1001 ∧
      1 / 100000 < float64_ten_us ∧
      float64_ten_us < 1 / 100000 + 1 / 1180591620717411303424) :=
  ⟨⟨by norm_num, by norm_num⟩,
   C5_duration_conversion 100000000 (1 / 1000000) (by norm_num) (by norm_num)⟩

/-- Claim C7 (confirmed).  Requesting an LFPS clock frequency of 60 MHz,
above the 50 MHz bound, fails the construction-time assert of the
transmitter whatever the tick rate, and no configuration is produced; any
frequency inside [10 MHz, 50 MHz] passes both asserts and construction
succeeds. -/
theorem C7_freq_range_check (sys lfps : ℚ)
    (hlo : lfps_clk_freq_min ≤ lfps) (hhi : lfps ≤ lfps_clk_freq_max) :
    transmitterNew sys 60000000 = Except.error ConfigError.freqTooHigh ∧
    ∃ cfg, transmitterNew sys lfps = Except.ok cfg := by
  constructor
  · unfold transmitterNew
    rw [if_neg (by norm_num [lfps_clk_freq_min]),
      if_pos (by norm_num [lfps_clk_freq_max])]
  · refine ⟨⟨Int.ceil (sys / (2 * lfps)) - 1, burst_cycles sys,
      repeat_cycles sys⟩, ?_⟩
    unfold transmitterNew
    rw [if_neg (not_lt.mpr hlo), if_neg (not_lt.mpr hhi)]

/-- Witness for C7 at 100 MHz tick rate and an in-range 25 MHz frequency. -/
theorem C7_freq_range_check_witness :
    (lfps_clk_freq_min ≤ (25000000 : ℚ) ∧
      (25000000 : ℚ) ≤ lfps_clk_freq_max) ∧
    (transmitterNew 100000000 60000000 =
        Except.error ConfigError.freqTooHigh ∧
      ∃ cfg, transmitterNew 100000000 25000000 = Except.ok cfg) :=
  ⟨⟨by norm_num [lfps_clk_freq_min], by norm_num [lfps_clk_freq_max]⟩,
   C7_freq_range_check 100000000 25000000 (by norm_num [lfps_clk_freq_min])
     (by norm_num [lfps_clk_freq_max])⟩

/-- Claim C8 (amended).  The source never validates the tick rate: the only
construction-time checks are the transmitter asserts on the LFPS clock
frequency.  With a zero or negative tick rate and an in-range LFPS frequency
the transmitter constructor runs to completion and returns a configuration
(with a non-positive timer load), and the receiver constructor, which
contains no checks at all, likewise returns a configuration. -/
theorem C8_amended_no_tick_rate_check (sys : ℚ) (hsys : sys ≤ 0) :
    (∃ cfg, transmitterNew sys 25000000 = Except.ok cfg) ∧
    receiverNew sys = Except.ok ⟨burst_cycles sys, repeat_cycles sys⟩ := by
  constructor
  · refine ⟨⟨Int.ceil (sys / (2 * 25000000)) - 1, burst_cycles sys,
      repeat_cycles sys⟩, ?_⟩
    unfold transmitterNew
    rw [if_neg (by norm_num [lfps_clk_freq_min]),
      if_neg (by norm_num [lfps_clk_freq_max])]
  · rfl

/-- Witness for C8 at tick rate zero. -/
theorem C8_amended_no_tick_rate_check_witness :
    (0 : ℚ) ≤ 0 ∧
    ((∃ cfg, transmitterNew 0 25000000 = Except.ok cfg) ∧
      receiverNew 0 = Except.ok ⟨burst_cycles 0, repeat_cycles 0⟩) :=
  ⟨le_refl 0, C8_amended_no_tick_rate_check 0 (le_refl 0)⟩

/-- Counterexample to claim C8 as stated: constructing the transmitter with
tick rate 0 and a legal 25 MHz frequency does not fail — both asserts pass
and a configuration (with timer load ceil(0) - 1 = -1 and zero tick counts)
is returned, where the claim demands a synchronous ConfigurationError. -/
theorem C8_counterexample :
    transmitterNew 0 25000000 = Except.ok ⟨-1, 0, 0⟩ := by
  unfold transmitterNew
  rw [if_neg (by norm_num [lfps_clk_freq_min]),
    if_neg (by norm_num [lfps_clk_freq_max])]
  have h1 : Int.ceil ((0 : ℚ) / (2 * 25000000)) - 1 = -1 := by norm_num
  have h2 : burst_cycles 0 = 0 := by
    show Int.ceil (typOrZero PollingLFPS.burst.t_typ * 0) = 0
    rw [show typOrZero PollingLFPS.burst.t_typ = 1 / 1000000 from rfl]
    norm_num
  have h3 : repeat_cycles 0 = 0 := by
    show Int.ceil
      (typOrZero (PollingLFPS.repeat'.elim none (fun tm => tm.t_typ)) * 0) = 0
    rw [show typOrZero (PollingLFPS.repeat'.elim none (fun tm => tm.t_typ)) =
      1 / 100000 from rfl]
    norm_num
  rw [h1, h2, h3]

/-- Claim C10 (confirmed).  The LFPS constructor assigns None to the cycles
field for every combination of arguments — the cycles argument is discarded —
and in particular PingLFPS, constructed with cycles = 2, has cycles = None. -/
theorem C10_cycles_discarded (b : LFPSTiming) (r : Option LFPSTiming)
    (c : Option ℕ) :
    (LFPS.make b r c).cycles = none ∧ PingLFPS.cycles = none :=
  ⟨rfl, rfl⟩
set_option maxRecDepth 8000 in
theorem detrun_250 :
    mrun (detStep 100 1000) detOut upPolling detInit 250 =
      (⟨DetPhase.TREPEAT, 750, false⟩, 0) := by
  decide

set_option maxRecDepth 8000 in
theorem detrun_500 :
    mrun (detStep 100 1000) detOut upPolling detInit 500 =
      (⟨DetPhase.TREPEAT, 500, false⟩, 0) := by
  rw [show (500 : ℕ) = 250 + 250 by norm_num,
    mrun_add (detStep 100 1000) detOut upPolling detInit 250 250, detrun_250]
  decide

set_option maxRecDepth 8000 in
theorem detrun_750 :
    mrun (detStep 100 1000) detOut upPolling detInit 750 =
      (⟨DetPhase.TREPEAT, 250, false⟩, 0) := by
  rw [show (750 : ℕ) = 500 + 250 by norm_num,
    mrun_add (detStep 100 1000) detOut upPolling detInit 500 250, detrun_500]
  decide

set_option maxRecDepth 8000 in
theorem detrun_1000 :
    mrun (detStep 100 1000) detOut upPolling detInit 1000 =
      (⟨DetPhase.TREPEAT, 0, false⟩, 0) := by
  rw [show (1000 : ℕ) = 750 + 250 by norm_num,
    mrun_add (detStep 100 1000) detOut upPolling detInit 750 250, detrun_750]
  decide

set_option maxRecDepth 8000 in
theorem detrun_1001 :
    mrun (detStep 100 1000) detOut upPolling detInit 1001 =
      (⟨DetPhase.TBURST, 99, true⟩, 0) := by
  rw [show (1001 : ℕ) = 1000 + 1 by norm_num,
    mrun_add (detStep 100 1000) detOut upPolling detInit 1000 1, detrun_1000]
  decide

set_option maxRecDepth 8000 in
theorem detrun_1002 :
    mrun (detStep 100 1000) detOut upPolling detInit 1002 =
      (⟨DetPhase.TBURST, 98, false⟩, 1) := by
  rw [show (1002 : ℕ) = 1001 + 1 by norm_num,
    mrun_add (detStep 100 1000) detOut upPolling detInit 1001 1, detrun_1001]
  decide

set_option maxRecDepth 8000 in
theorem detrun_1252 :
    mrun (detStep 100 1000) detOut upPolling detInit 1252 =
      (⟨DetPhase.TREPEAT, 748, false⟩, 1) := by
  rw [show (1252 : ℕ) = 1002 + 250 by norm_num,
    mrun_add (detStep 100 1000) detOut upPolling detInit 1002 250, detrun_1002]
  decide

set_option maxRecDepth 8000 in
theorem detrun_1502 :
    mrun (detStep 100 1000) detOut upPolling detInit 1502 =
      (⟨DetPhase.TREPEAT, 498, false⟩, 1) := by
  rw [show (1502 : ℕ) = 1252 + 250 by norm_num,
    mrun_add (detStep 100 1000) detOut upPolling detInit 1252 250, detrun_1252]
  decide

set_option maxRecDepth 8000 in
theorem detrun_1752 :
    mrun (detStep 100 1000) detOut upPolling detInit 1752 =
      (⟨DetPhase.TREPEAT, 248, false⟩, 1) := by
  rw [show (1752 : ℕ) = 1502 + 250 by norm_num,
    mrun_add (detStep 100 1000) detOut upPolling detInit 1502 250, detrun_1502]
  decide

set_option maxRecDepth 8000 in
theorem detrun_2001 :
    mrun (detStep 100 1000) detOut upPolling detInit 2001 =
      (⟨DetPhase.TBURST, 99, true⟩, 1) := by
  rw [show (2001 : ℕ) = 1752 + 249 by norm_num,
    mrun_add (detStep 100 1000) detOut upPolling detInit 1752 249, detrun_1752]
  decide

set_option maxRecDepth 8000 in
theorem lprun_250 :
    mrun loopStep loopOut uTrue loopInit 250 =
      (⟨⟨0, 750⟩, true, true, ⟨DetPhase.TREPEAT, 850, false⟩⟩, 0) := by
  decide

set_option maxRecDepth 8000 in
theorem lprun_500 :
    mrun loopStep loopOut uTrue loopInit 500 =
      (⟨⟨0, 500⟩, true, true, ⟨DetPhase.TREPEAT, 600, false⟩⟩, 0) := by
  rw [show (500 : ℕ) = 250 + 250 by norm_num,
    mrun_add loopStep loopOut uTrue loopInit 250 250, lprun_250]
  decide

set_option maxRecDepth 8000 in
theorem lprun_750 :
    mrun loopStep loopOut uTrue loopInit 750 =
      (⟨⟨0, 250⟩, true, true, ⟨DetPhase.TREPEAT, 350, false⟩⟩, 0) := by
  rw [show (750 : ℕ) = 500 + 250 by norm_num,
    mrun_add loopStep loopOut uTrue loopInit 500 250, lprun_500]
  decide

set_option maxRecDepth 8000 in
theorem lprun_1000 :
    mrun loopStep loopOut uTrue loopInit 1000 =
      (⟨⟨0, 0⟩, true, true, ⟨DetPhase.TREPEAT, 100, false⟩⟩, 0) := by
  rw [show (1000 : ℕ) = 750 + 250 by norm_num,
    mrun_add loopStep loopOut uTrue loopInit 750 250, lprun_750]
  decide

set_option maxRecDepth 8000 in
theorem lprun_1250 :
    mrun loopStep loopOut uTrue loopInit 1250 =
      (⟨⟨0, 751⟩, true, true, ⟨DetPhase.TREPEAT, 753, false⟩⟩, 0) := by
  rw [show (1250 : ℕ) = 1000 + 250 by norm_num,
    mrun_add loopStep loopOut uTrue loopInit 1000 250, lprun_1000]
  decide

set_option maxRecDepth 8000 in
theorem lprun_1500 :
    mrun loopStep loopOut uTrue loopInit 1500 =
      (⟨⟨0, 501⟩, true, true, ⟨DetPhase.TREPEAT, 503, false⟩⟩, 0) := by
  rw [show (1500 : ℕ) = 1250 + 250 by norm_num,
    mrun_add loopStep loopOut uTrue loopInit 1250 250, lprun_1250]
  decide

set_option maxRecDepth 8000 in
theorem lprun_1750 :
    mrun loopStep loopOut uTrue loopInit 1750 =
      (⟨⟨0, 251⟩, true, true, ⟨DetPhase.TREPEAT, 253, false⟩⟩, 0) := by
  rw [show (1750 : ℕ) = 1500 + 250 by norm_num,
    mrun_add loopStep loopOut uTrue loopInit 1500 250, lprun_1500]
  decide

set_option maxRecDepth 8000 in
theorem lprun_2000 :
    mrun loopStep loopOut uTrue loopInit 2000 =
      (⟨⟨0, 1⟩, true, true, ⟨DetPhase.TREPEAT, 3, false⟩⟩, 0) := by
  rw [show (2000 : ℕ) = 1750 + 250 by norm_num,
    mrun_add loopStep loopOut uTrue loopInit 1750 250, lprun_1750]
  decide

set_option maxRecDepth 8000 in
theorem lprun_2004 :
    mrun loopStep loopOut uTrue loopInit 2004 =
      (⟨⟨98, 998⟩, false, false, ⟨DetPhase.TBURST, 99, true⟩⟩, 0) := by
  rw [show (2004 : ℕ) = 2000 + 4 by norm_num,
    mrun_add loopStep loopOut uTrue loopInit 2000 4, lprun_2000]
  decide

set_option maxRecDepth 8000 in
theorem lprun_2005 :
    mrun loopStep loopOut uTrue loopInit 2005 =
      (⟨⟨97, 997⟩, false, false, ⟨DetPhase.TBURST, 98, false⟩⟩, 1) := by
  rw [show (2005 : ℕ) = 2004 + 1 by norm_num,
    mrun_add loopStep loopOut uTrue loopInit 2004 1, lprun_2004]
  decide

set_option maxRecDepth 8000 in
theorem lprun_2255 :
    mrun loopStep loopOut uTrue loopInit 2255 =
      (⟨⟨0, 747⟩, true, true, ⟨DetPhase.TREPEAT, 848, false⟩⟩, 1) := by
  rw [show (2255 : ℕ) = 2005 + 250 by norm_num,
    mrun_add loopStep loopOut uTrue loopInit 2005 250, lprun_2005]
  decide

set_option maxRecDepth 8000 in
theorem lprun_2505 :
    mrun loopStep loopOut uTrue loopInit 2505 =
      (⟨⟨0, 497⟩, true, true, ⟨DetPhase.TREPEAT, 598, false⟩⟩, 1) := by
  rw [show (2505 : ℕ) = 2255 + 250 by norm_num,
    mrun_add loopStep loopOut uTrue loopInit 2255 250, lprun_2255]
  decide

set_option maxRecDepth 8000 in
theorem lprun_2755 :
    mrun loopStep loopOut uTrue loopInit 2755 =
      (⟨⟨0, 247⟩, true, true, ⟨DetPhase.TREPEAT, 348, false⟩⟩, 1) := by
  rw [show (2755 : ℕ) = 2505 + 250 by norm_num,
    mrun_add loopStep loopOut uTrue loopInit 2505 250, lprun_2505]
  decide

set_option maxRecDepth 8000 in
theorem lprun_3005 :
    mrun loopStep loopOut uTrue loopInit 3005 =
      (⟨⟨98, 998⟩, false, false, ⟨DetPhase.TREPEAT, 98, false⟩⟩, 1) := by
  rw [show (3005 : ℕ) = 2755 + 250 by norm_num,
    mrun_add loopStep loopOut uTrue loopInit 2755 250, lprun_2755]
  decide

set_option maxRecDepth 8000 in
theorem lprun_3255 :
    mrun loopStep loopOut uTrue loopInit 3255 =
      (⟨⟨0, 748⟩, true, true, ⟨DetPhase.TREPEAT, 750, false⟩⟩, 1) := by
  rw [show (3255 : ℕ) = 3005 + 250 by norm_num,
    mrun_add loopStep loopOut uTrue loopInit 3005 250, lprun_3005]
  decide

set_option maxRecDepth 8000 in
theorem lprun_3505 :
    mrun loopStep loopOut uTrue loopInit 3505 =
      (⟨⟨0, 498⟩, true, true, ⟨DetPhase.TREPEAT, 500, false⟩⟩, 1) := by
  rw [show (3505 : ℕ) = 3255 + 250 by norm_num,
    mrun_add loopStep loopOut uTrue loopInit 3255 250, lprun_3255]
  decide

set_option maxRecDepth 8000 in
theorem lprun_3755 :
    mrun loopStep loopOut uTrue loopInit 3755 =
      (⟨⟨0, 248⟩, true, true, ⟨DetPhase.TREPEAT, 250, false⟩⟩, 1) := by
  rw [show (3755 : ℕ) = 3505 + 250 by norm_num,
    mrun_add loopStep loopOut uTrue loopInit 3505 250, lprun_3505]
  decide

set_option maxRecDepth 8000 in
theorem lprun_4005 :
    mrun loopStep loopOut uTrue loopInit 4005 =
      (⟨⟨99, 999⟩, false, true, ⟨DetPhase.TREPEAT, 0, false⟩⟩, 1) := by
  rw [show (4005 : ℕ) = 3755 + 250 by norm_num,
    mrun_add loopStep loopOut uTrue loopInit 3755 250, lprun_3755]
  decide

set_option maxRecDepth 8000 in
theorem lprun_4006 :
    mrun loopStep loopOut uTrue loopInit 4006 =
      (⟨⟨98, 998⟩, false, false, ⟨DetPhase.TBURST, 99, true⟩⟩, 1) := by
  rw [show (4006 : ℕ) = 4005 + 1 by norm_num,
    mrun_add loopStep loopOut uTrue loopInit 4005 1, lprun_4005]
  decide


theorem upPolling_periodic (t : ℕ) : upPolling (t + 1000) = upPolling t := by
  unfold upPolling
  rw [Nat.add_mod_right]

theorem ukPolling_eq_of_lt {k s : ℕ} (h : s < 1000 * k) :
    ukPolling k s = upPolling s := by
  unfold ukPolling
  simp [h]

theorem ukPolling_eq_true_of_ge {k s : ℕ} (h : 1000 * k ≤ s) :
    ukPolling k s = true := by
  unfold ukPolling
  simp [Nat.not_lt.mpr h]

theorem detOut_true (s : DetState) : detOut true s = false := by
  simp [detOut]

theorem mpulse_input_true {u : ℕ → Bool} {n : ℕ} (B R : ℕ) (s0 : DetState)
    (h : u n = true) : mpulse (detStep B R) detOut u s0 n = false := by
  unfold mpulse
  rw [h, detOut_true]

theorem det_up_st_period :
    mst (detStep 100 1000) detOut upPolling detInit (1001 + 1000) =
      mst (detStep 100 1000) detOut upPolling detInit 1001 := by
  show (mrun (detStep 100 1000) detOut upPolling detInit (1001 + 1000)).1 =
    (mrun (detStep 100 1000) detOut upPolling detInit 1001).1
  rw [show (1001 : ℕ) + 1000 = 2001 by norm_num, detrun_2001, detrun_1001]

theorem det_up_cnt_1001 :
    mcnt (detStep 100 1000) detOut upPolling detInit 1001 = 0 := by
  show (mrun (detStep 100 1000) detOut upPolling detInit 1001).2 = 0
  rw [detrun_1001]

theorem det_up_cnt_1002 :
    mcnt (detStep 100 1000) detOut upPolling detInit 1002 = 1 := by
  show (mrun (detStep 100 1000) detOut upPolling detInit 1002).2 = 1
  rw [detrun_1002]

theorem det_up_cnt_2001 :
    mcnt (detStep 100 1000) detOut upPolling detInit 2001 = 1 := by
  show (mrun (detStep 100 1000) detOut upPolling detInit 2001).2 = 1
  rw [detrun_2001]

theorem det_up_pulse_1001 :
    mpulse (detStep 100 1000) detOut upPolling detInit 1001 = true := by
  show detOut (upPolling 1001)
    (mrun (detStep 100 1000) detOut upPolling detInit 1001).1 = true
  rw [detrun_1001]
  decide

/-- Pulse characterization of the receiver on the ideal periodic Polling
cadence: the polling output is asserted exactly at the ticks
1001 + 1000 * m, i.e. one tick after each burst-start tick except the very
first (the first full cycle only arms the found latch). -/
theorem det_up_char (t : ℕ) :
    mpulse (detStep 100 1000) detOut upPolling detInit t = true ↔
      1001 ≤ t ∧ (t - 1001) % 1000 = 0 := by
  rcases Nat.lt_or_ge t 1001 with hlt | hge
  · have hz : mcnt (detStep 100 1000) detOut upPolling detInit 0 =
        mcnt (detStep 100 1000) detOut upPolling detInit 1001 := by
      rw [det_up_cnt_1001]
      rfl
    have hf := mpulse_false_between (detStep 100 1000) detOut upPolling detInit
      hz (Nat.zero_le t) hlt
    rw [hf]
    simp
    omega
  · rw [mpulse_reduce (detStep 100 1000) detOut upPolling detInit
      upPolling_periodic det_up_st_period t hge]
    have hrlt : (t - 1001) % 1000 < 1000 := Nat.mod_lt _ (by norm_num)
    rcases Nat.eq_zero_or_pos ((t - 1001) % 1000) with hr0 | hrpos
    · rw [hr0, Nat.add_zero, det_up_pulse_1001]
      simp [hge, hr0]
    · have hf := mpulse_false_between (detStep 100 1000) detOut upPolling
        detInit (det_up_cnt_1002.trans det_up_cnt_2001.symm)
        (show 1002 ≤ 1001 + (t - 1001) % 1000 by omega)
        (show 1001 + (t - 1001) % 1000 < 2001 by omega)
      rw [hf]
      simp
      omega

/-- Claim C1 (amended).  Feeding the receiver FSM (Polling tick counts
B = 100, R = 1000) an input that is low for exactly B ticks then high for
exactly R - B ticks, repeated k times and followed by permanent idle,
produces a polling pulse exactly at the ticks m * R + 1 with 1 <= m <= k - 1
(hence exactly k - 1 one-tick pulses, not k): each pulse fires one tick
AFTER a burst-start tick, not on it, and the first cycle only arms the found
latch while the pulse armed by the final cycle never fires because no
further burst arrives. -/
theorem C1_amended_pulse_times (k t : ℕ) :
    mpulse (detStep 100 1000) detOut (ukPolling k) detInit t = true ↔
      1001 ≤ t ∧ t < 1000 * k ∧ (t - 1001) % 1000 = 0 := by
  rcases Nat.lt_or_ge t (1000 * k) with hlt | hge
  · have hag : mpulse (detStep 100 1000) detOut (ukPolling k) detInit t =
        mpulse (detStep 100 1000) detOut upPolling detInit t := by
      apply mpulse_congr
      intro s hs
      exact ukPolling_eq_of_lt (by omega)
    rw [hag, det_up_char t]
    omega
  · rw [mpulse_input_true 100 1000 detInit (ukPolling_eq_true_of_ge hge)]
    simp
    omega

/-- Counterexample to claim C1 as stated: with k = 1 (one full repetition
then idle) the claim demands exactly one pulse, on a burst-start tick, but
no pulse at all occurs during the first 2000 ticks (and the amended theorem
shows none ever occurs); moreover on the endlessly repeated cadence the
first pulse fires at tick 1001, which lies inside the second burst
(the input is low there) but is not a burst-start tick (1001 mod 1000 = 1;
the burst starts at tick 1000, where the output is still low). -/
theorem C1_counterexample :
    mcnt (detStep 100 1000) detOut (ukPolling 1) detInit 2000 = 0 ∧
    mpulse (detStep 100 1000) detOut upPolling detInit 1001 = true ∧
    upPolling 1001 = false ∧ 1001 % 1000 = 1 ∧
    mpulse (detStep 100 1000) detOut upPolling detInit 1000 = false := by
  refine ⟨?_, det_up_pulse_1001, by decide, by norm_num, ?_⟩
  · apply mcnt_eq_zero
    intro t ht
    rcases Nat.lt_or_ge t 1000 with h1 | h2
    · have hag : mpulse (detStep 100 1000) detOut (ukPolling 1) detInit t =
          mpulse (detStep 100 1000) detOut upPolling detInit t := by
        apply mpulse_congr
        intro s hs
        exact ukPolling_eq_of_lt (by omega)
      rw [hag]
      rcases Bool.eq_false_or_eq_true
        (mpulse (detStep 100 1000) detOut upPolling detInit t) with h | h
      · exfalso
        have := (det_up_char t).mp h
        omega
      · exact h
    · exact mpulse_input_true 100 1000 detInit
        (ukPolling_eq_true_of_ge (by omega))
  · rcases Bool.eq_false_or_eq_true
      (mpulse (detStep 100 1000) detOut upPolling detInit 1000) with h | h
    · exfalso
      have := (det_up_char 1000).mp h
      omega
    · exact h

theorem uTrue_periodic (t : ℕ) : uTrue (t + 2002) = uTrue t := rfl

theorem loop_st_period :
    mst loopStep loopOut uTrue loopInit (2004 + 2002) =
      mst loopStep loopOut uTrue loopInit 2004 := by
  show (mrun loopStep loopOut uTrue loopInit (2004 + 2002)).1 =
    (mrun loopStep loopOut uTrue loopInit 2004).1
  rw [show (2004 : ℕ) + 2002 = 4006 by norm_num, lprun_4006, lprun_2004]

theorem loop_cnt_2004 : mcnt loopStep loopOut uTrue loopInit 2004 = 0 := by
  show (mrun loopStep loopOut uTrue loopInit 2004).2 = 0
  rw [lprun_2004]

theorem loop_cnt_2005 : mcnt loopStep loopOut uTrue loopInit 2005 = 1 := by
  show (mrun loopStep loopOut uTrue loopInit 2005).2 = 1
  rw [lprun_2005]

theorem loop_cnt_4006 : mcnt loopStep loopOut uTrue loopInit 4006 = 1 := by
  show (mrun loopStep loopOut uTrue loopInit 4006).2 = 1
  rw [lprun_4006]

theorem loop_pulse_2004 : mpulse loopStep loopOut uTrue loopInit 2004 = true := by
  show loopOut (uTrue 2004) (mrun loopStep loopOut uTrue loopInit 2004).1 = true
  rw [lprun_2004]
  decide

/-- Claim C3 (amended).  Wiring the transmitter gated idle output (Polling
tick counts 100/1000 in the exact model, i.e. a 100 MHz tick rate) into the
receiver raw idle input (through its two-stage synchronizer), the polling
output is asserted exactly at the ticks 2004 + 2002 * m: one pulse every TWO
generator repeat periods (a generator period being repeat_ticks + 1 = 1001
ticks), not one pulse per period.  The generator period 1001 exceeds the
repeat window 1000 the receiver measures, so every other cycle is rejected
as an early re-burst and detection only succeeds on alternating cycles. -/
theorem C3_amended_loop_pulse_times (t : ℕ) :
    mpulse loopStep loopOut uTrue loopInit t = true ↔
      2004 ≤ t ∧ (t - 2004) % 2002 = 0 := by
  rcases Nat.lt_or_ge t 2004 with hlt | hge
  · have hz : mcnt loopStep loopOut uTrue loopInit 0 =
        mcnt loopStep loopOut uTrue loopInit 2004 := by
      rw [loop_cnt_2004]
      rfl
    have hf := mpulse_false_between loopStep loopOut uTrue loopInit
      hz (Nat.zero_le t) hlt
    rw [hf]
    simp
    omega
  · rw [mpulse_reduce loopStep loopOut uTrue loopInit
      uTrue_periodic loop_st_period t hge]
    have hrlt : (t - 2004) % 2002 < 2002 := Nat.mod_lt _ (by norm_num)
    rcases Nat.eq_zero_or_pos ((t - 2004) % 2002) with hr0 | hrpos
    · rw [hr0, Nat.add_zero, loop_pulse_2004]
      simp [hge, hr0]
    · have hf := mpulse_false_between loopStep loopOut uTrue loopInit
        (loop_cnt_2005.trans loop_cnt_4006.symm)
        (show 2005 ≤ 2004 + (t - 2004) % 2002 by omega)
        (show 2004 + (t - 2004) % 2002 < 4006 by omega)
      rw [hf]
      simp
      omega

/-- Counterexample to claim C3 as stated: the closed loop produces no pulse
at all during the first 2004 ticks — which contain the whole first generator
repeat period and almost all of the second — exactly one pulse at tick 2004,
and then none again before tick 4006: the window 2005..4005, which is longer
than a full generator repeat period, is pulse-free, so the loop does not
pulse once per repeat period. -/
theorem C3_counterexample :
    mcnt loopStep loopOut uTrue loopInit 2004 = 0 ∧
    mcnt loopStep loopOut uTrue loopInit 2005 = 1 ∧
    mcnt loopStep loopOut uTrue loopInit 4006 = 1 :=
  ⟨loop_cnt_2004, loop_cnt_2005, loop_cnt_4006⟩
